import Mathlib

/-!
Verification of the twicketsbot polling client (`main.py`).

The source program is a single-threaded control loop around an HTTPS
connection.  The embedding below models the pure decision logic of each
function faithfully, line by line, while the environment (socket outcomes,
HTTP responses, random draws, wall-clock time) is passed in explicitly.
Every observable side effect (sleeps, notifications, file writes, closing
the connection, issuing a request) is recorded in an event trace.
-/

/-- Exception kinds that can arise in the embedded program.  `gaierror` and
`osError` are the transport-level exception classes (`socket.gaierror` is a
subclass of `OSError` in Python, but the handlers in the source distinguish
them by clause order, so the embedding keeps them apart);
`otherHTTPException` stands for any `http.client.HTTPException` other than
`ResponseNotReady`; `nameError` models evaluation of an unbound name;
`typeError` models indexing a list with a string key;
`notTwoHundredStatus` is the distinguished non-200 failure.
Modelled from the spec: `helpers.py` (defining `NotTwoHundredStatusError`)
is not in the sources; the spec calls it "a distinguished 'non-200 status'
failure", distinct from the transport exception classes, so it is not
caught by the `http.client.HTTPException` handlers. -/
inductive PyExc where
  | gaierror
  | osError
  | responseNotReady
  | otherHTTPException
  | nameError
  | typeError
  | runtimeError
  | notTwoHundredStatus (status : Nat)
deriving DecidableEq, Repr

/-- Upper bound on retry loops in the source (`MAX_RETRIES = 5`). -/
def MAX_RETRIES : Nat := 5

/-- Base delay in seconds for connection backoff (`BASE_DELAY = 60`). -/
def BASE_DELAY : Nat := 60

/- ## Deduplication ledger (lines 56-69) -/

/-- State of the persisted `notified_ids.json` file: missing, present but
not valid JSON, or a JSON array of strings. -/
inductive FileState where
  | absent
  | invalidJson
  | jsonList (ids : List String)
deriving DecidableEq

/-- Embedding of `load_notified_ids` (lines 56-64): a missing file yields
the empty set (`os.path.exists` guard), a `json.JSONDecodeError` is caught
and yields the empty set, and a valid JSON array is converted with `set()`.
The function is total: no exception escapes on the absent or corrupt
paths. -/
def load_notified_ids : FileState → Finset String
  | .absent => ∅
  | .invalidJson => ∅
  | .jsonList ids => ids.toFinset

/-- Embedding of `save_notified_ids` (lines 66-69): the set is rendered as
a JSON array via `list(notified_ids)` and overwrites the file.  Python's
`list(set)` enumerates in an unspecified order; the embedding picks the
sorted enumeration (the claims only compare persisted contents as sets). -/
def save_notified_ids (ids : Finset String) : FileState :=
  .jsonList (ids.sort (fun a b => a ≤ b))

/- ## Authentication response validation (lines 102-127) -/

/-- Python values that can appear in a decoded auth response; `pyNone`
doubles as Python `None`, both as a missing-field marker and as the JSON
`null` value. -/
inductive PyVal where
  | pyNone
  | pyStr (s : String)
deriving DecidableEq, Repr

/-- Required top-level fields of an authentication response (line 104). -/
def requiredAuthKeys : List String :=
  ["responseData", "responseCode", "description", "clock"]

/-- Embedding of `validate_auth_response` (lines 102-107): the decoded JSON
object is an association list; if all four required keys are present the
value of `responseData` is returned, otherwise Python `None`. -/
def validate_auth_response (response : List (String × PyVal)) : PyVal :=
  if requiredAuthKeys.all (fun k => response.any (fun p => p.1 = k)) then
    (response.lookup "responseData").getD .pyNone
  else
    .pyNone

/-- Embedding of the response handling of `authenticate` (lines 119-127),
with the transport abstracted as the observed status code and decoded
body: on a 200 status the body is validated, any other status logs a
warning and returns Python `None` without raising. -/
def authenticate (status : Nat) (body : List (String × PyVal)) : PyVal :=
  if status = 200 then validate_auth_response body else .pyNone

/- ## Connection establishment (lines 71-89) -/

/-- Outcome of one call to `conn.connect()`, supplied by the environment:
success, a DNS failure (`socket.gaierror`), or any other transport failure
(`OSError` / `http.client.HTTPException`). -/
inductive ConnectOutcome where
  | success
  | dnsFailure
  | transportFailure
deriving DecidableEq, Repr

/-- Observable result of `_ensure_connection`: the exception that escaped
(if any), the backoff sleeps performed, and whether the connection socket
is open on return. -/
structure EnsureResult where
  raised : Option PyExc
  sleeps : List Nat
  sockOpen : Bool
deriving DecidableEq, Repr

/-- Embedding of the retry loop of `_ensure_connection` (lines 73-89).
Arguments: the environment's outcome for the i-th `connect()` call, the
remaining loop iterations (`MAX_RETRIES - retries`), the index of the next
`connect()` call, the current `retries` value, and whether the socket is
open.  Faithful to the source:
* a `socket.gaierror` is caught by its own clause first (clause order, it
  is also an `OSError`), whose log message evaluates the bare name
  `BASE_DELAY` — undefined at module level, the constant lives on the
  class — so the handler itself raises `NameError`;
* any other `OSError`/`HTTPException` handler closes the connection,
  builds a fresh one and calls `self.conn.connect()` unguarded inside the
  `except` block, so a failure of that call propagates;
* when the handler's reconnect succeeds, `retries` is incremented first
  and the sleep is `BASE_DELAY * 2 ** retries` with the incremented value;
* exhausting the loop logs an error and returns normally. -/
def ensureLoop (o : Nat → ConnectOutcome) :
    Nat → Nat → Nat → Bool → EnsureResult
  | 0, _, _, sock => ⟨none, [], sock⟩
  | fuel + 1, idx, retries, sock =>
    match o idx with
    | .success => ⟨none, [], true⟩
    | .dnsFailure => ⟨some .nameError, [], sock⟩
    | .transportFailure =>
      match o (idx + 1) with
      | .success =>
        let r := ensureLoop o fuel (idx + 2) (retries + 1) true
        ⟨r.raised, BASE_DELAY * 2 ^ (retries + 1) :: r.sleeps, r.sockOpen⟩
      | .dnsFailure => ⟨some .gaierror, [], false⟩
      | .transportFailure => ⟨some .osError, [], false⟩

/-- Embedding of `_ensure_connection` (lines 71-89): the loop starts with
`retries = 0` and a closed socket. -/
def ensure_connection (o : Nat → ConnectOutcome) : EnsureResult :=
  ensureLoop o MAX_RETRIES 0 0 false

/- ## The main loop `run` (lines 154-227) -/

/-- One listing record returned by the inventory endpoint; only the
compound `id` field is ever inspected by the source. -/
structure Listing where
  id : String
deriving DecidableEq, Repr

/-- Environment outcome of the guarded request/response block of
`check_event_availability` (lines 135-151): a full response with a status
and decoded listing array, an `http.client.ResponseNotReady`, any other
`http.client.HTTPException`, or a socket-level `OSError` (the underlying
calls can raise these; they are not `HTTPException` subclasses and no
clause catches them). -/
inductive RequestOutcome where
  | response (status : Nat) (items : List Listing)
  | responseNotReady
  | httpException
  | socketOSError
deriving DecidableEq, Repr

/-- Mutable state of `run` across loop iterations: the cycle counter, the
consecutive-failure counter and the in-memory notified-id set. -/
structure RunState where
  count : Nat
  attempts : Nat
  notified : Finset String
deriving DecidableEq

/-- Per-iteration environment inputs of the main loop: the wall-clock day
ordinal and second-of-day, the two random draws (`time_delay` in [15,30],
`auth_time_delay` in [180,360]), whether the socket is open after
`_ensure_connection` returns inside the poll, the outcome of the guarded
request, and whether the mid-loop `authenticate()` yields a token. -/
structure CycleEnv where
  nowDay : Nat
  nowSec : Nat
  time_delay : Nat
  auth_time_delay : Nat
  sockAfterEnsure : Bool
  reqOutcome : RequestOutcome
  reauthOk : Bool
deriving DecidableEq

/-- Observable events of one loop iteration, in program order. -/
inductive Ev where
  | ensure
  | request
  | closeConn
  | sleepFor (n : Nat)
  | reauth (ok : Bool)
  | notify (msg : String)
  | save (ids : Finset String)
deriving DecidableEq

/-- How an iteration of the main loop ends: continue with a new state,
terminate via `sys.exit` (a string argument makes the exit status
non-zero), or abort to the outermost `except Exception` handler, which
ends `run`. -/
inductive CycleResult where
  | next (s : RunState)
  | exited (msg : String) (nonzeroStatus : Bool)
  | aborted (e : PyExc)
deriving DecidableEq

/-- Message of the final give-up notification and `sys.exit` call
(line 206). -/
def EXIT_MESSAGE : String := "Exiting after five failed login attempts"

/-- Message sent by the outermost exception handler (lines 223-227),
built from the cycle counter and the caught exception. -/
def caughtMessage (count : Nat) (e : PyExc) : String :=
  "Cycle " ++ toString count ++ " Caught exception " ++ toString (repr e)

/-- Seconds per day. -/
def SECONDS_PER_DAY : Nat := 86400

/-- Second-of-day of the 08:00 wake-up time. -/
def WAKE_SEC : Nat := 8 * 3600

/-- Absolute timestamp in seconds of second `sec` on day `day`. -/
def absSeconds (day : Nat) (sec : Nat) : Nat := day * SECONDS_PER_DAY + sec

/-- Quiet-window test of line 171: `now.hour >= 22 or now.hour < 8` with
`hour = nowSec / 3600`. -/
def inQuietWindow (nowSec : Nat) : Bool :=
  22 ≤ nowSec / 3600 || nowSec / 3600 < 8

/-- Embedding of lines 172-174: `tomorrow = now + timedelta(days=1)`,
`wake_time = datetime(tomorrow.year, tomorrow.month, tomorrow.day, 8, 0,
0)`, `sleep_duration = (wake_time - now).total_seconds()` — always 08:00
of the following calendar day. -/
def quietSleepSeconds (day sec : Nat) : Nat :=
  absSeconds (day + 1) WAKE_SEC - absSeconds day sec

/-- Definition following the spec's words, for comparison: "compute
seconds until 08:00 the next applicable day", read as the time until the
earliest future 08:00 (same day when the clock is before 08:00, next day
otherwise). -/
def secondsUntilNextEight (nowSec : Nat) : Nat :=
  if nowSec < WAKE_SEC then WAKE_SEC - nowSec
  else SECONDS_PER_DAY + WAKE_SEC - nowSec

/-- Embedding of `check_event_availability` (lines 129-152) given the
post-`_ensure_connection` socket state and the request outcome.  The
request block runs only under `if self.conn.sock is not None`; a 200
response returns the decoded `responseData` items; any other status
raises `NotTwoHundredStatusError`, which no clause here catches (see
`PyExc`); `ResponseNotReady` is swallowed; any other
`http.client.HTTPException` closes the connection; both fall through to
`return []`.  A socket-level `OSError` matches no clause and
propagates. -/
def check_event_availability (env : CycleEnv) :
    List Ev × Except PyExc (List Listing) :=
  if env.sockAfterEnsure then
    match env.reqOutcome with
    | .response status items =>
      if status = 200 then ([.ensure, .request], .ok items)
      else ([.ensure, .request], .error (.notTwoHundredStatus status))
    | .responseNotReady => ([.ensure, .request], .ok [])
    | .httpException => ([.ensure, .request, .closeConn], .ok [])
    | .socketOSError => ([.ensure, .request], .error .osError)
  else
    ([.ensure], .ok [])

/-- Embedding of the per-item notification block (lines 190-197).  The
source evaluates `str(items['id']).split('@')[1]` in the loop body —
indexing the returned list `items` with the string key `'id'` — which
raises `TypeError` as soon as the body runs, i.e. for every non-empty
list; an empty list skips the block (`if items:`). -/
def notifyNewListings (items : List Listing) (notified : Finset String) :
    Except PyExc (List Ev × Finset String) :=
  match items with
  | [] => .ok ([], notified)
  | _ :: _ => .error .typeError

/-- Embedding of one iteration of the main `while True` loop of `run`
(lines 168-217), together with the outermost `except Exception` handler
(lines 223-227) on the abort paths.  Program order is kept exactly:
* quiet window: one blocking sleep, `count = 1`, `continue` — no polling
  and `attempts` untouched;
* otherwise one poll; on a normal return `backoff` and `attempts` reset
  to 0, `count` increments, the item block runs, then the short sleep;
* an exception from the item block reaches the outer handler, which
  saves the ledger and sends a notification describing the exception;
* on `NotTwoHundredStatusError`: if `attempts > MAX_RETRIES`, save the
  ledger, send the give-up notification and `sys.exit` with a message
  (non-zero status); otherwise sleep `auth_time_delay * 2 ** attempts`
  after closing the connection, increment `attempts`, re-authenticate,
  and raise `RuntimeError` (caught by the outer handler) when no token
  comes back;
* any other exception from the poll also reaches the outer handler. -/
def runCycle (s : RunState) (env : CycleEnv) : List Ev × CycleResult :=
  if inQuietWindow env.nowSec then
    ([.sleepFor (quietSleepSeconds env.nowDay env.nowSec)],
      .next { s with count := 1 })
  else
    match check_event_availability env with
    | (tr, .ok items) =>
      let c2 := s.count + 1
      match notifyNewListings items s.notified with
      | .ok (evs, notified2) =>
        (tr ++ evs ++ [.sleepFor env.time_delay],
          .next ⟨c2, 0, notified2⟩)
      | .error e =>
        (tr ++ [.save s.notified, .notify (caughtMessage c2 e)],
          .aborted e)
    | (tr, .error (.notTwoHundredStatus _)) =>
      if MAX_RETRIES < s.attempts then
        (tr ++ [.save s.notified, .notify EXIT_MESSAGE],
          .exited EXIT_MESSAGE true)
      else
        let sl := env.auth_time_delay * 2 ^ s.attempts
        if env.reauthOk then
          (tr ++ [.closeConn, .sleepFor sl, .reauth true],
            .next { s with attempts := s.attempts + 1 })
        else
          (tr ++ [.closeConn, .sleepFor sl, .reauth false,
              .save s.notified, .notify (caughtMessage s.count .runtimeError)],
            .aborted .runtimeError)
    | (tr, .error e) =>
      (tr ++ [.save s.notified, .notify (caughtMessage s.count e)],
        .aborted e)

/-- Iterated main loop: run one cycle per environment until an iteration
terminates or aborts, concatenating the event traces. -/
def iterateCycles (s : RunState) : List CycleEnv → List Ev × CycleResult
  | [] => ([], .next s)
  | env :: rest =>
    match runCycle s env with
    | (tr, .next s2) =>
      let r := iterateCycles s2 rest
      (tr ++ r.1, r.2)
    | (tr, r) => (tr, r)

/-- Environment of a daytime poll cycle that fails with a non-200 status
and whose mid-loop re-authentication succeeds, parameterised by the
second-of-day, the short delay draw and the `auth_time_delay` draw. -/
def failEnv (ns td base : Nat) : CycleEnv :=
  ⟨0, ns, td, base, true, .response 403 [], true⟩

/-- Daytime cycle whose poll returns two fresh listings with compound ids
`0000@A` and `0000@B`. -/
def envTwoNew : CycleEnv :=
  ⟨0, 43200, 20, 200, true, .response 200 [⟨"0000@A"⟩, ⟨"0000@B"⟩], true⟩

/-- Daytime cycle whose poll returns one listing whose extracted id `A` is
already in the ledger. -/
def envDupListing : CycleEnv :=
  ⟨0, 43200, 20, 200, true, .response 200 [⟨"0000@A"⟩], true⟩

/-- Cycle starting at 03:00 (inside the quiet window, before 08:00). -/
def envEarlyMorning : CycleEnv :=
  ⟨0, 10800, 20, 200, true, .response 200 [], true⟩

/-- Cycle starting at 23:00. -/
def envElevenPM : CycleEnv :=
  ⟨7, 82800, 20, 200, true, .response 200 [], true⟩

/-- Daytime cycle whose request raises a socket-level `OSError`. -/
def envSocketError : CycleEnv :=
  ⟨0, 43200, 20, 200, true, .socketOSError, true⟩

/-- Daytime cycle whose poll hits `ResponseNotReady`. -/
def envNotReady : CycleEnv :=
  ⟨0, 43200, 17, 200, true, .responseNotReady, true⟩

/-- Daytime cycle in which `_ensure_connection` returned without an open
socket. -/
def envNoSocket : CycleEnv :=
  ⟨0, 43200, 25, 200, false, .responseNotReady, true⟩

/-- Sample decoded authentication body carrying all four required fields. -/
def sampleAuthBody : List (String × PyVal) :=
  [("responseData", .pyStr "tok"), ("responseCode", .pyStr "100"),
   ("description", .pyStr "ok"), ("clock", .pyStr "c")]

/- ## Helper lemmas -/

/-- Helper: the tomorrow-based quiet-window sleep of lines 172-174 equals
`24h + 08:00 - nowSec` whenever the second-of-day is in range. -/
theorem quietSleepSeconds_eq (day sec : Nat) (h : sec < SECONDS_PER_DAY) :
    quietSleepSeconds day sec = SECONDS_PER_DAY + WAKE_SEC - sec := by
  unfold quietSleepSeconds absSeconds SECONDS_PER_DAY WAKE_SEC at *
  omega

/-- Helper: outside the quiet window, every iteration's first event is the
`_ensure_connection` call made by `check_event_availability`. -/
theorem runCycle_nonquiet_starts_ensure (s : RunState) (env : CycleEnv)
    (hq : inQuietWindow env.nowSec = false) :
    ((runCycle s env).1).head? = some .ensure := by
  obtain ⟨d, ns2, td2, ad, sock, ro, ra⟩ := env
  simp only [CycleEnv.nowSec] at hq
  cases sock <;> rcases ro with ⟨st, items⟩ | _ | _ | _ <;>
    try cases items
  all_goals
    simp [runCycle, check_event_availability, notifyNewListings, hq] <;>
      split_ifs <;> simp

/-- Helper: a daytime cycle with a non-200 poll status, attempts not yet
over the cap, and a successful re-authentication: close the connection,
sleep `auth_time_delay * 2 ** attempts`, re-authenticate, increment
`attempts`. -/
theorem runCycle_failEnv (s : RunState) (ns td b : Nat)
    (hq : inQuietWindow ns = false) (ha : s.attempts ≤ MAX_RETRIES) :
    runCycle s (failEnv ns td b) =
      ([.ensure, .request, .closeConn, .sleepFor (b * 2 ^ s.attempts),
        .reauth true], .next ⟨s.count, s.attempts + 1, s.notified⟩) := by
  have h2 : ¬ (MAX_RETRIES < s.attempts) := by omega
  simp [runCycle, check_event_availability, failEnv, hq, h2]

/-- Helper: a daytime cycle with a non-200 poll status and `attempts`
already over the cap saves the ledger, notifies and exits non-zero. -/
theorem runCycle_failEnv_exit (s : RunState) (ns td b : Nat)
    (hq : inQuietWindow ns = false) (ha : MAX_RETRIES < s.attempts) :
    runCycle s (failEnv ns td b) =
      ([.ensure, .request, .save s.notified, .notify EXIT_MESSAGE],
        .exited EXIT_MESSAGE true) := by
  simp [runCycle, check_event_availability, failEnv, hq, ha]

/- ## Claims -/

/-- C1: the spec claims that a successful poll returning listings with ids
`A` and `B` against an empty ledger sends exactly two notifications in
listing order and leaves the ledger `{A, B}`.  The code instead evaluates
`items['id']` — indexing the returned list with a string key — so the
first loop body raises `TypeError`: no listing notification is sent, the
ledger stays empty, and the outer handler persists the empty ledger,
sends an exception notification and ends `run`. -/
theorem run_new_listings_typeerror :
    runCycle ⟨1, 0, ∅⟩ envTwoNew =
      ([.ensure, .request, .save ∅, .notify (caughtMessage 2 .typeError)],
        .aborted .typeError) := by
  rfl

/-- C2: on consecutive non-200 failures the n-th backoff sleep is
`base_n * 2 ^ n` with the base drawn afresh in [180, 360] each failing
iteration, the connection is closed immediately before each sleep,
`attempts` grows by exactly one per failure, and on the failure with
`attempts > MAX_RETRIES` the process saves the ledger, sends the give-up
notification and exits with a non-zero status. -/
theorem run_non200_backoff_and_giveup
    (ns td b0 b1 b2 b3 b4 b5 b6 : Nat)
    (hq : inQuietWindow ns = false)
    (hb : ∀ x ∈ [b0, b1, b2, b3, b4, b5, b6], 180 ≤ x ∧ x ≤ 360) :
    iterateCycles ⟨1, 0, ∅⟩
        ([b0, b1, b2, b3, b4, b5, b6].map (failEnv ns td)) =
      ([.ensure, .request, .closeConn, .sleepFor (b0 * 2 ^ 0), .reauth true,
        .ensure, .request, .closeConn, .sleepFor (b1 * 2 ^ 1), .reauth true,
        .ensure, .request, .closeConn, .sleepFor (b2 * 2 ^ 2), .reauth true,
        .ensure, .request, .closeConn, .sleepFor (b3 * 2 ^ 3), .reauth true,
        .ensure, .request, .closeConn, .sleepFor (b4 * 2 ^ 4), .reauth true,
        .ensure, .request, .closeConn, .sleepFor (b5 * 2 ^ 5), .reauth true,
        .ensure, .request, .save ∅, .notify EXIT_MESSAGE],
        .exited EXIT_MESSAGE true)
    ∧ (∀ k, k ≤ 6 →
        (iterateCycles ⟨1, 0, ∅⟩
          (([b0, b1, b2, b3, b4, b5, b6].take k).map (failEnv ns td))).2 =
        .next ⟨1, k, ∅⟩) := by
  have s0 := runCycle_failEnv ⟨1, 0, ∅⟩ ns td b0 hq (by decide)
  have s1 := runCycle_failEnv ⟨1, 1, ∅⟩ ns td b1 hq (by decide)
  have s2 := runCycle_failEnv ⟨1, 2, ∅⟩ ns td b2 hq (by decide)
  have s3 := runCycle_failEnv ⟨1, 3, ∅⟩ ns td b3 hq (by decide)
  have s4 := runCycle_failEnv ⟨1, 4, ∅⟩ ns td b4 hq (by decide)
  have s5 := runCycle_failEnv ⟨1, 5, ∅⟩ ns td b5 hq (by decide)
  have s6 := runCycle_failEnv_exit ⟨1, 6, ∅⟩ ns td b6 hq (by decide)
  refine ⟨?_, ?_⟩
  · simp [iterateCycles, s0, s1, s2, s3, s4, s5, s6]
  · intro k hk
    interval_cases k <;>
      simp [iterateCycles, s0, s1, s2, s3, s4, s5]

/-- C2 witness: concrete bases 180..240 give the stated sleeps, the
exit after the seventh consecutive failure, and `attempts = 3` after
three failures. -/
theorem run_non200_backoff_and_giveup_witness :
    (iterateCycles ⟨1, 0, ∅⟩
        ([180, 190, 200, 210, 220, 230, 240].map (failEnv 43200 20))).2 =
      .exited EXIT_MESSAGE true
    ∧ (iterateCycles ⟨1, 0, ∅⟩
        (([180, 190, 200, 210, 220, 230, 240].take 3).map
          (failEnv 43200 20))).2 =
      .next ⟨1, 3, ∅⟩ := by
  have h := run_non200_backoff_and_giveup 43200 20 180 190 200 210 220 230 240
    (by decide) (by decide)
  exact ⟨by rw [h.1], h.2 3 (by omega)⟩

/-- C3: the spec claims that a poll returning only a listing whose
extracted id is already in the ledger sends no notification and leaves
the ledger unchanged, the cycle completing normally.  The code never
reaches the membership test: `items['id']` raises `TypeError` on the
non-empty list, so the cycle aborts the whole run through the outer
handler, which re-saves the (unchanged) ledger and sends an exception
notification instead of continuing silently. -/
theorem run_duplicate_listing_typeerror :
    runCycle ⟨3, 0, {"A"}⟩ envDupListing =
      ([.ensure, .request, .save {"A"},
        .notify (caughtMessage 4 .typeError)], .aborted .typeError) := by
  rfl

/-- C4 counterexample: at 03:00 the code sleeps 104400 seconds (until
08:00 of the following day), not the 18000 seconds until the next 08:00
that the claim's "08:00 the next applicable day" denotes. -/
theorem quiet_window_early_morning_counterexample :
    runCycle ⟨5, 0, ∅⟩ envEarlyMorning =
      ([.sleepFor 104400], .next ⟨1, 0, ∅⟩)
    ∧ secondsUntilNextEight 10800 = 18000
    ∧ 104400 ≠ 18000 :=
  ⟨rfl, rfl, by decide⟩

/-- C4 amended: inside the quiet window (hour at least 22 or below 8) the
iteration performs exactly one blocking sleep of
`24h + 08:00 - nowSec` seconds — always until 08:00 of the following
calendar day, overshooting the same day's 08:00 when the hour is below
8 — does not poll, resets `count` to 1 and restarts. -/
theorem quiet_window_sleeps_until_tomorrow (s : RunState) (env : CycleEnv)
    (hq : inQuietWindow env.nowSec = true)
    (hs : env.nowSec < SECONDS_PER_DAY) :
    runCycle s env =
      ([.sleepFor (SECONDS_PER_DAY + WAKE_SEC - env.nowSec)],
        .next ⟨1, s.attempts, s.notified⟩) := by
  unfold runCycle
  rw [if_pos hq, quietSleepSeconds_eq env.nowDay env.nowSec hs]

/-- C4 witness: at 23:00 the iteration sleeps 32400 seconds — nine hours,
until 08:00 the next day — without polling, and resets `count` to 1. -/
theorem quiet_window_sleeps_until_tomorrow_witness :
    runCycle ⟨9, 2, ∅⟩ envElevenPM =
      ([.sleepFor 32400], .next ⟨1, 2, ∅⟩) := by
  have h := quiet_window_sleeps_until_tomorrow ⟨9, 2, ∅⟩ envElevenPM
    (by decide) (by decide)
  simpa [envElevenPM, SECONDS_PER_DAY, WAKE_SEC] using h

/-- C5: loading the file written by `save_notified_ids` returns exactly
the saved set, for every finite set of strings. -/
theorem load_save_roundtrip (x : Finset String) :
    load_notified_ids (save_notified_ids x) = x := by
  simp [load_notified_ids, save_notified_ids]

/-- C6: `load_notified_ids` yields the empty set on a missing file and on
a file whose contents are not valid JSON; as a total Lean function it
raises nothing (the source catches `json.JSONDecodeError` and guards the
missing-file case with `os.path.exists`). -/
theorem load_missing_or_corrupt_empty :
    load_notified_ids .absent = ∅ ∧ load_notified_ids .invalidJson = ∅ :=
  ⟨rfl, rfl⟩

/-- C7: `authenticate` returns the `responseData` value exactly when the
status is 200 and all four required fields are present; a non-200 status
or a missing field yields Python `None`, and the embedded function is
total, so neither path raises. -/
theorem authenticate_token_conditions (status : Nat)
    (body : List (String × PyVal)) :
    (status = 200 →
      (∀ k ∈ requiredAuthKeys, body.any (fun p => p.1 = k) = true) →
      authenticate status body = (body.lookup "responseData").getD .pyNone)
    ∧ (status ≠ 200 → authenticate status body = .pyNone)
    ∧ ((∃ k ∈ requiredAuthKeys, ¬ body.any (fun p => p.1 = k) = true) →
      authenticate status body = .pyNone) := by
  refine ⟨?_, ?_, ?_⟩
  · intro h200 hkeys
    unfold authenticate validate_auth_response
    rw [if_pos h200, if_pos (List.all_eq_true.mpr hkeys)]
  · intro hne
    unfold authenticate
    rw [if_neg hne]
  · rintro ⟨k, hk, hnot⟩
    unfold authenticate validate_auth_response
    have hall : ¬ (requiredAuthKeys.all
        (fun k => body.any (fun p => p.1 = k)) = true) := by
      intro hall
      exact hnot (List.all_eq_true.mp hall k hk)
    by_cases h200 : status = 200
    · rw [if_pos h200, if_neg hall]
    · rw [if_neg h200]

/-- C7 witness: with all four fields present a 200 response yields the
token `tok`; a 403 yields Python `None`. -/
theorem authenticate_token_conditions_witness :
    authenticate 200 sampleAuthBody = .pyStr "tok"
    ∧ authenticate 403 sampleAuthBody = .pyNone := by
  constructor
  · have h := (authenticate_token_conditions 200 sampleAuthBody).1 rfl
      (by decide)
    simpa [sampleAuthBody] using h
  · exact (authenticate_token_conditions 403 sampleAuthBody).2.1 (by decide)

/-- C8: the spec claims `_ensure_connection` retries up to the cap with
pure exponential backoff and returns normally after exhausting retries.
The code instead raises on the very first failing attempt: the DNS
handler evaluates the undefined bare name `BASE_DELAY` (a `NameError`),
and the transport handler reconnects unguarded inside the `except` block,
propagating that failure — in both cases zero backoff sleeps happen and
an exception escapes. -/
theorem ensure_connection_raises_on_failures :
    ensure_connection (fun _ => .dnsFailure) = ⟨some .nameError, [], false⟩
    ∧ ensure_connection (fun _ => .transportFailure) =
      ⟨some .osError, [], false⟩ :=
  ⟨rfl, rfl⟩

/-- C9 counterexample: a socket-level `OSError` raised while issuing the
request is a connection-level transport exception, yet it matches neither
`except` clause of `check_event_availability` and propagates to `run`,
aborting the loop through the outermost handler. -/
theorem poll_oserror_propagates :
    runCycle ⟨2, 0, ∅⟩ envSocketError =
      ([.ensure, .request, .save ∅, .notify (caughtMessage 2 .osError)],
        .aborted .osError) := by
  rfl

/-- C9 amended: every `http.client` exception during the poll is
contained — `ResponseNotReady` is swallowed, any other
`http.client.HTTPException` closes the connection — both yielding an
empty result for the cycle with `attempts` reset and `count` incremented,
and the next non-quiet iteration again begins by ensuring the
connection.  Socket-level `OSError`s, by contrast, propagate. -/
theorem poll_http_exceptions_contained (s : RunState) (env : CycleEnv)
    (hq : inQuietWindow env.nowSec = false)
    (hs : env.sockAfterEnsure = true)
    (ho : env.reqOutcome = .responseNotReady
      ∨ env.reqOutcome = .httpException) :
    (runCycle s env).2 = .next ⟨s.count + 1, 0, s.notified⟩
    ∧ (runCycle s env).1 =
      [.ensure, .request]
        ++ (if env.reqOutcome = .httpException then [.closeConn] else [])
        ++ [.sleepFor env.time_delay]
    ∧ (∀ (s2 : RunState) (env2 : CycleEnv),
        inQuietWindow env2.nowSec = false →
        ((runCycle s2 env2).1).head? = some .ensure) := by
  rcases ho with ho | ho <;>
    refine ⟨?_, ?_, fun s2 env2 hq2 =>
      runCycle_nonquiet_starts_ensure s2 env2 hq2⟩ <;>
    simp [runCycle, check_event_availability, notifyNewListings, hq, hs, ho]

/-- C9 witness: a `ResponseNotReady` during a daytime poll leaves the
cycle indistinguishable from an empty successful poll. -/
theorem poll_http_exceptions_contained_witness :
    (runCycle ⟨7, 2, {"A"}⟩ envNotReady).2 = .next ⟨8, 0, {"A"}⟩ :=
  (poll_http_exceptions_contained ⟨7, 2, {"A"}⟩ envNotReady (by decide) rfl
    (Or.inl rfl)).1

/-- C10: when `_ensure_connection` comes back without an open socket the
cycle issues no request (its trace is just the ensure call and the short
sleep), returns the empty list, resets `attempts` and increments `count`
exactly as a successful empty poll does — the caller cannot tell the two
apart and the re-authentication path is not taken. -/
theorem no_socket_cycle_like_empty_poll (s : RunState) (env : CycleEnv)
    (hq : inQuietWindow env.nowSec = false)
    (hs : env.sockAfterEnsure = false) :
    (runCycle s env).1 = [.ensure, .sleepFor env.time_delay]
    ∧ (runCycle s env).2 = .next ⟨s.count + 1, 0, s.notified⟩
    ∧ (runCycle s env).2 =
      (runCycle s
        { env with sockAfterEnsure := true, reqOutcome := .response 200 [] }).2 := by
  refine ⟨?_, ?_, ?_⟩ <;>
    simp [runCycle, check_event_availability, notifyNewListings, hq, hs]

/-- C10 witness: a concrete socketless cycle behaves as a successful
empty poll. -/
theorem no_socket_cycle_like_empty_poll_witness :
    (runCycle ⟨4, 3, ∅⟩ envNoSocket).1 = [.ensure, .sleepFor 25]
    ∧ (runCycle ⟨4, 3, ∅⟩ envNoSocket).2 = .next ⟨5, 0, ∅⟩ := by
  have h := no_socket_cycle_like_empty_poll ⟨4, 3, ∅⟩ envNoSocket
    (by decide) rfl
  exact ⟨h.1, h.2.1⟩
